import Mathlib

/-!
Verification of the column-correlation system.

The repository ships the HTTP layer (Go handlers), the Next.js frontend and
the browser-side crypto utility; the correlation engine itself (signal
scorer, context adjuster, weight learner, confidence calibrator, graph
assembler) is specified in spec.md but its implementation file is not part
of the sources here, so those components are modelled from the spec and
marked as such.  Machine arithmetic is embedded with Nat and rational
numbers; byte values carry explicit bounds.
-/

namespace EulerCorr

/-! ## Generic helpers -/

/-- Clamp a rational to the closed interval from lo to hi. -/
def clampQ (lo hi x : ℚ) : ℚ := max lo (min hi x)

/-- Does the list start with the given pattern of characters? -/
def leadsWith : List Char → List Char → Bool
  | _, [] => true
  | [], _ :: _ => false
  | h :: t, h' :: t' => h = h' && leadsWith t t'

/-- Does the haystack contain the needle as a contiguous sublist? -/
def containsSub : List Char → List Char → Bool
  | hay, sub =>
    if leadsWith hay sub then true
    else match hay with
      | [] => false
      | _ :: t => containsSub t sub

/-- Substring test on strings, via the character lists. -/
def strContains (hay sub : String) : Bool := containsSub hay.toList sub.toList

/-- ASCII lower-casing of one character, as strings.ToLower and
String.prototype.toLowerCase act on the ASCII range. -/
def lowerChar (c : Char) : Char :=
  if 65 ≤ c.toNat ∧ c.toNat ≤ 90 then Char.ofNat (c.toNat + 32) else c

/-- ASCII lower-casing of a string. -/
def lowerStr (s : String) : String := ⟨s.data.map lowerChar⟩

/-! ## Base64 (the btoa / atob pair used by crypto.ts)

crypto.ts serialises the IV-plus-ciphertext byte array with btoa and reads
it back with atob; both are embedded here over lists of byte values. -/

/-- The standard base64 alphabet, as used by btoa / atob. -/
def b64chars : List Char :=
  "ABCDEFGHIJKLMNOPQRSTUVWXYZabcdefghijklmnopqrstuvwxyz0123456789+/".toList

/-- The character encoding a six-bit group. -/
def sextetChar (n : Nat) : Char := b64chars.getD n '?'

/-- The six-bit group a base64 character stands for. -/
def charSextet (c : Char) : Nat := b64chars.indexOf c

/-- btoa: encode a byte list into base64 characters, padding with the
equals sign as the Web API does. -/
def b64encode : List Nat → List Char
  | [] => []
  | [a] => [sextetChar (a / 4), sextetChar (a % 4 * 16), '=', '=']
  | [a, b] =>
      [sextetChar (a / 4), sextetChar (a % 4 * 16 + b / 16),
       sextetChar (b % 16 * 4), '=']
  | a :: b :: c :: rest =>
      sextetChar (a / 4) :: sextetChar (a % 4 * 16 + b / 16) ::
      sextetChar (b % 16 * 4 + c / 64) :: sextetChar (c % 64) :: b64encode rest

/-- atob: decode base64 characters back into bytes. -/
def b64decode : List Char → List Nat
  | w :: x :: y :: z :: rest =>
      (charSextet w * 4 + charSextet x / 16) ::
      (if y = '=' then []
       else (charSextet x % 16 * 16 + charSextet y / 4) ::
         (if z = '=' then []
          else (charSextet y % 4 * 64 + charSextet z) :: b64decode rest))
  | _ => []

/-! ## crypto.ts: encryptValue / decryptValue / secureStore / secureRetrieve

The AES-GCM cipher and the PBKDF2 key derivation live behind the Web
Crypto API, outside this repository; they enter the embedding as abstract
functions over byte lists (the derived key is baked into the pair, which
matches the claim's unchanged-fingerprint-and-salt hypothesis).  What the
repository's own code does - prepend the fresh IV to the ciphertext,
base64-encode the combination, and on the way back split at IV_LENGTH = 12
and decrypt - is embedded faithfully below. -/

/-- crypto.ts encryptValue: IV plus ciphertext, base64-encoded. -/
def encryptValue (enc : List Nat → List Nat → List Nat)
    (iv data : List Nat) : List Char :=
  b64encode (iv ++ enc iv data)

/-- crypto.ts decryptValue: decode, split at IV_LENGTH = 12, decrypt. -/
def decryptValue (dec : List Nat → List Nat → List Nat)
    (s : List Char) : List Nat :=
  dec ((b64decode s).take 12) ((b64decode s).drop 12)

/-- localStorage.setItem on an association-list model of localStorage. -/
def lsSet (st : List (String × List Char)) (k : String) (v : List Char) :
    List (String × List Char) :=
  (k, v) :: st

/-- localStorage.getItem. -/
def lsGet (st : List (String × List Char)) (k : String) : Option (List Char) :=
  (st.find? (fun p => p.1 = k)).map (fun p => p.2)

/-- crypto.ts secureStore: encrypt, then store under the enc-prefixed key. -/
def secureStore (enc : List Nat → List Nat → List Nat) (iv : List Nat)
    (st : List (String × List Char)) (key : String) (value : List Nat) :
    List (String × List Char) :=
  lsSet st ("enc_" ++ key) (encryptValue enc iv value)

/-- crypto.ts secureRetrieve: look up the enc-prefixed key and decrypt. -/
def secureRetrieve (dec : List Nat → List Nat → List Nat)
    (st : List (String × List Char)) (key : String) : Option (List Nat) :=
  match lsGet st ("enc_" ++ key) with
  | none => none
  | some e => some (decryptValue dec e)

/-! ## Data model (spec section 3)

The engine implementation is absent from the sources shipped here (only
its HTTP callers and the frontend are), so every engine definition below
is modelled from the spec and says so in its doc comment. -/

/-- Modelled from the spec: the inferred type of a column. -/
inductive InferredType
  | numeric | categorical | temporal | text
deriving DecidableEq

/-- Modelled from the spec: per-column numeric statistics. -/
structure NumericStats where
  mean : ℚ
  stddev : ℚ
  q05 : ℚ
  q25 : ℚ
  q50 : ℚ
  q75 : ℚ
  q95 : ℚ
deriving DecidableEq

/-- Modelled from the spec: per-column categorical statistics,
top-K value-to-frequency pairs. -/
structure CategoricalStats where
  topValues : List (String × Nat)
deriving DecidableEq

/-- Modelled from the spec: the tagged statistics variant. -/
inductive ColumnStats
  | numeric (s : NumericStats)
  | categorical (s : CategoricalStats)
  | plain
deriving DecidableEq

/-- Modelled from the spec: ColumnProfile, the per-column statistical
summary produced by the profiling collaborator. -/
structure ColumnProfile where
  name : String
  inferredType : InferredType
  nullRate : ℚ
  distinctCount : Nat
  stats : ColumnStats
  sampleValues : List String
deriving DecidableEq

/-- Modelled from the spec: DatasetContext, the user-supplied business
context for one file. -/
structure DatasetContext where
  purpose : String
  business_domain : String
  key_entities : List String
  column_descriptions : List (String × String)
  custom_mappings : List (String × String)
  exclusions : List String
deriving DecidableEq

/-- The empty context, used when a file has no stored context. -/
def emptyContext : DatasetContext := ⟨"", "", [], [], [], []⟩

instance : Inhabited DatasetContext := ⟨emptyContext⟩

/-- Modelled from the spec: SignalScores, the four similarity signals. -/
structure SignalScores where
  name_similarity : ℚ
  data_similarity : ℚ
  distribution_similarity : ℚ
  semantic_score : ℚ
deriving DecidableEq

/-- Modelled from the spec: the edge type tag. -/
inductive EdgeType
  | heuristic | semantic | custom
deriving DecidableEq

/-- Modelled from the spec: CandidateEdge, one scored column-pair proposal. -/
structure CandidateEdge where
  file1_column : String
  file2_column : String
  raw : ℚ
  confidence : ℚ
  signals : SignalScores
  type : EdgeType
deriving DecidableEq

/-- Modelled from the spec: SimilarityGraph, the ordered edge sequence for
one file pair. -/
structure SimilarityGraph where
  edges : List CandidateEdge
deriving DecidableEq

/-! ## Weight Learner (spec section 4.3) -/

/-- Modelled from the spec: WeightVector, the blend weights for the three
structural signals. -/
structure WeightVector where
  name : ℚ
  data : ℚ
  pattern : ℚ
deriving DecidableEq

/-- Modelled from the spec: the initial weights. -/
def initialWeights : WeightVector := ⟨45/100, 35/100, 20/100⟩

/-- Modelled from the spec: the fixed learning rate, default 0.01. -/
def learningRate : ℚ := 1/100

/-- Modelled from the spec: FeedbackRecord - the scored pair's signals,
the delivered confidence, the accept or reject outcome, timestamped. -/
structure FeedbackRecord where
  signals : SignalScores
  confidence : ℚ
  accepted : Bool
  timestamp : Nat
deriving DecidableEq

/-- Which structural signal to nudge. -/
inductive SignalKind
  | name | data | pattern
deriving DecidableEq

/-- Modelled from the spec: the signal most responsible for the delivered
score, the one with the largest weighted contribution. -/
def dominantSignal (w : WeightVector) (s : SignalScores) : SignalKind :=
  if w.data * s.data_similarity ≤ w.name * s.name_similarity ∧
     w.pattern * s.distribution_similarity ≤ w.name * s.name_similarity then
    .name
  else if w.pattern * s.distribution_similarity ≤ w.data * s.data_similarity then
    .data
  else
    .pattern

/-- Sum of the three weight components. -/
def wvSum (w : WeightVector) : ℚ := w.name + w.data + w.pattern

/-- Clamp one weight component to the 0.05 to 0.8 band. -/
def clampW (x : ℚ) : ℚ := max (1/20) (min (4/5) x)

/-- Modelled from the spec: nudge the chosen component, up on acceptance
and down on rejection, by the learning rate. -/
def nudged (w : WeightVector) (k : SignalKind) (acc : Bool) : WeightVector :=
  let d : ℚ := if acc then learningRate else -learningRate
  match k with
  | .name => { w with name := w.name + d }
  | .data => { w with data := w.data + d }
  | .pattern => { w with pattern := w.pattern + d }

/-- Modelled from the spec: renormalize the vector to sum 1. -/
def renormalized (w : WeightVector) : WeightVector :=
  ⟨w.name / wvSum w, w.data / wvSum w, w.pattern / wvSum w⟩

/-- Clamp every component to the 0.05 to 0.8 band. -/
def clamped (w : WeightVector) : WeightVector :=
  ⟨clampW w.name, clampW w.data, clampW w.pattern⟩

/-- Modelled from the spec: one Weight Learner update - nudge the dominant
signal's weight, renormalize to sum 1, clamp components to 0.05 to 0.8.
The running update counter and the loss-trend classification the spec also
mentions are observability metadata and do not feed back into the vector. -/
def updateWeights (w : WeightVector) (fb : FeedbackRecord) : WeightVector :=
  clamped (renormalized (nudged w (dominantSignal w fb.signals) fb.accepted))

/-- The weight vectors the learner can ever hold: the initial vector and
everything any feedback stream produces from it. -/
inductive ReachableWV : WeightVector → Prop
  | init : ReachableWV initialWeights
  | step (w : WeightVector) (fb : FeedbackRecord) :
      ReachableWV w → ReachableWV (updateWeights w fb)

/-- The WeightVector invariant: every component within 0.05 to 0.8 and the
sum within 7/100 of 1. -/
def WVInv (w : WeightVector) : Prop :=
  1/20 ≤ w.name ∧ w.name ≤ 4/5 ∧
  1/20 ≤ w.data ∧ w.data ≤ 4/5 ∧
  1/20 ≤ w.pattern ∧ w.pattern ≤ 4/5 ∧
  |wvSum w - 1| ≤ 7/100

/-! ## Confidence Calibrator (spec section 4.4) -/

/-- Modelled from the spec: one calibration bin - sample count and
observed acceptance rate. -/
structure CalBin where
  count : Nat
  rate : ℚ
deriving DecidableEq

/-- Modelled from the spec: CalibrationModel, ordered width-10 bins over
confidence. -/
structure CalibrationModel where
  bins : List CalBin
deriving DecidableEq

/-- Modelled from the spec: the minimum bin sample count, default 10. -/
def minBinSamples : Nat := 10

/-- The bin a confidence value falls into, width 10, top bin absorbing 100. -/
def binIndex (conf : ℚ) : Nat := min 9 (⌊conf⌋.toNat / 10)

/-- A calibration model is well formed when every bin's observed
acceptance rate is a probability. -/
def CalWF (m : CalibrationModel) : Prop :=
  ∀ b ∈ m.bins, 0 ≤ b.rate ∧ b.rate ≤ 1

/-- The bin a confidence value is looked up in; out-of-range lookups see
an empty bin. -/
def calBinAt (m : CalibrationModel) (conf : ℚ) : CalBin :=
  m.bins.getD (binIndex conf) ⟨0, 0⟩

/-- Modelled from the spec: calibrate a raw confidence - fall back to the
raw value when the bin is thin, otherwise blend toward the bin's observed
acceptance rate with a weight growing in the bin's sample count. -/
def calibrate (m : CalibrationModel) (conf : ℚ) : ℚ :=
  if (calBinAt m conf).count < minBinSamples then conf
  else conf + (((calBinAt m conf).count : ℚ) /
        (((calBinAt m conf).count : ℚ) + minBinSamples)) *
        ((calBinAt m conf).rate * 100 - conf)

/-! ## Signal combination and Context Adjuster (spec sections 4.1, 4.2) -/

/-- Modelled from the spec: the neutral semantic fallback applied when the
external model call is unavailable or timed out. -/
def semValue (r : Option ℚ) : ℚ := r.getD (1/2)

/-- Modelled from the spec: the structural blend of the three signals
under the current weight snapshot. -/
def structuralScore (w : WeightVector) (s : SignalScores) : ℚ :=
  w.name * s.name_similarity + w.data * s.data_similarity +
    w.pattern * s.distribution_similarity

/-- Modelled from the spec: raw score, 0.7 structural and 0.3 semantic. -/
def rawScore (w : WeightVector) (s : SignalScores) (semv : ℚ) : ℚ :=
  (7/10) * structuralScore w s + (3/10) * semv

/-- Modelled from the spec: domain boost of 10 points, exactly when both
business domains are non-empty, equal case-insensitively, and the name
similarity exceeds the 0.5 threshold. -/
def domainBoost (c1 c2 : DatasetContext) (nameSim : ℚ) : ℚ :=
  if c1.business_domain ≠ "" ∧ c2.business_domain ≠ "" ∧
     lowerStr c1.business_domain = lowerStr c2.business_domain ∧
     (1/2 : ℚ) < nameSim then
    10
  else 0

/-- The key-entity tokens both contexts share. -/
def sharedEntities (c1 c2 : DatasetContext) : List String :=
  c1.key_entities.filter (fun e => c2.key_entities.contains e)

/-- Does the column name reference one of the given entity tokens? -/
def mentionsEntity (col : String) (es : List String) : Bool :=
  es.any (fun e => strContains (lowerStr col) (lowerStr e))

/-- Modelled from the spec: entity-overlap boost, proportional to the
overlap share of the key-entity sets and capped at 20 points, applied when
either column name references a shared entity. -/
def entityBoost (c1 c2 : DatasetContext) (n1 n2 : String) : ℚ :=
  let shared := sharedEntities c1 c2
  let total := max 1 (max c1.key_entities.length c2.key_entities.length)
  if mentionsEntity n1 shared || mentionsEntity n2 shared then
    min 20 (20 * (shared.length : ℚ) / (total : ℚ))
  else 0

/-- Is the ordered column pair custom-mapped in either supplied context?
The context wizard stores the user's custom mappings in both file
contexts. -/
def pairCustom (c1 c2 : DatasetContext) (n1 n2 : String) : Bool :=
  c1.custom_mappings.contains (n1, n2) || c2.custom_mappings.contains (n1, n2)

/-- Modelled from the spec: score one column pair.  A custom-mapped pair
is pinned at confidence 95 with type custom and skips every remaining
adjustment, calibration included (the spec invariant demands the final
confidence be exactly 95).  Otherwise the raw blend is scaled to points,
boosted, clamped to 0 to 100 and calibrated, and the edge type records
whether the semantic signal came from the model or from the fallback. -/
def scorePair (c1 c2 : DatasetContext) (w : WeightVector)
    (cal : CalibrationModel) (s : SignalScores) (semRes : Option ℚ)
    (n1 n2 : String) : CandidateEdge :=
  if pairCustom c1 c2 n1 n2 then
    { file1_column := n1, file2_column := n2,
      raw := rawScore w s (semValue semRes), confidence := 95,
      signals := { s with semantic_score := semValue semRes },
      type := .custom }
  else
    { file1_column := n1, file2_column := n2,
      raw := rawScore w s (semValue semRes),
      confidence := calibrate cal (clampQ 0 100
        (rawScore w s (semValue semRes) * 100 +
         (domainBoost c1 c2 s.name_similarity + entityBoost c1 c2 n1 n2))),
      signals := { s with semantic_score := semValue semRes },
      type := if semRes.isSome then .semantic else .heuristic }

/-! ## Graph Assembler (spec section 4.5) -/

/-- Modelled from the spec: the minimum confidence floor, default 10. -/
def confidenceFloor : ℚ := 10

/-- Keep an edge when it reaches the confidence floor; custom-mapped edges
are always kept. -/
def edgeKept (e : CandidateEdge) : Bool :=
  decide (e.type = .custom) || decide (confidenceFloor ≤ e.confidence)

/-- The deterministic output order: file1 column ascending, then
confidence descending. -/
def edgeLE (e1 e2 : CandidateEdge) : Bool :=
  decide (e1.file1_column < e2.file1_column) ||
    (decide (e1.file1_column = e2.file1_column) &&
     decide (e2.confidence ≤ e1.confidence))

/-- Insert an edge into a list sorted by edgeLE. -/
def insertEdge (e : CandidateEdge) : List CandidateEdge → List CandidateEdge
  | [] => [e]
  | f :: r => if edgeLE e f then e :: f :: r else f :: insertEdge e r

/-- Insertion sort by edgeLE. -/
def sortEdges : List CandidateEdge → List CandidateEdge
  | [] => []
  | e :: r => insertEdge e (sortEdges r)

/-- Modelled from the spec: GenerateGraph - enumerate the non-excluded
column pairs, score and adjust and calibrate each, drop sub-floor edges
except custom ones, and sort deterministically.  The structural signal
computation and the external semantic call enter as function arguments:
the claims quantify over all values of the computed signals. -/
def GenerateGraph (ps1 ps2 : List ColumnProfile) (c1 c2 : DatasetContext)
    (w : WeightVector) (cal : CalibrationModel)
    (sig : ColumnProfile → ColumnProfile → SignalScores)
    (sem : ColumnProfile → ColumnProfile → Option ℚ) : SimilarityGraph :=
  let inc1 := ps1.filter (fun p => ¬ c1.exclusions.contains p.name)
  let inc2 := ps2.filter (fun p => ¬ c2.exclusions.contains p.name)
  let scored := inc1.flatMap (fun p1 => inc2.map (fun p2 =>
    scorePair c1 c2 w cal (sig p1 p2) (sem p1 p2) p1.name p2.name))
  ⟨sortEdges (scored.filter edgeKept)⟩

/-! ## The HTTP handlers present in the sources (Go api package) -/

/-- The per-slot stored state behind ContextService: the analysis
(profile set) and the context for file slots 1 and 2. -/
structure AppState where
  analysis1 : Option (List ColumnProfile)
  analysis2 : Option (List ColumnProfile)
  context1 : Option DatasetContext
  context2 : Option DatasetContext
deriving DecidableEq

/-- The error the similarity service reports. -/
inductive SimError
  | profileNotFound
deriving DecidableEq

/-- Modelled from the spec: SimilarityService.GenerateGraph(1, 2) - a
scoring request against a file slot with no stored profile fails with a
not-found condition; with both profiles stored it builds the graph from
the stored profiles and contexts and the process-wide snapshots. -/
def serviceGenerateGraph (w : WeightVector) (cal : CalibrationModel)
    (sig : ColumnProfile → ColumnProfile → SignalScores)
    (sem : ColumnProfile → ColumnProfile → Option ℚ)
    (st : AppState) : Except SimError SimilarityGraph :=
  match st.analysis1, st.analysis2 with
  | some ps1, some ps2 =>
      .ok (GenerateGraph ps1 ps2 (st.context1.getD emptyContext)
            (st.context2.getD emptyContext) w cal sig sem)
  | _, _ => .error .profileNotFound

/-- An HTTP response carrying an optional graph payload. -/
structure GraphResponse where
  status : Nat
  graph : Option SimilarityGraph
deriving DecidableEq

/-- The Go handler GetSimilarityGraph: call the service and map ANY error
to HTTP 500 via http.Error with http.StatusInternalServerError. -/
def getSimilarityGraphHandler (w : WeightVector) (cal : CalibrationModel)
    (sig : ColumnProfile → ColumnProfile → SignalScores)
    (sem : ColumnProfile → ColumnProfile → Option ℚ)
    (st : AppState) : GraphResponse :=
  match serviceGenerateGraph w cal sig sem st with
  | .ok g => ⟨200, some g⟩
  | .error _ => ⟨500, none⟩

/-- The Go handler GetQuestions, status only: a missing analysis for the
slot answers HTTP 404 not found; with an analysis present the generated
question payload (QuestionGenerator, outside these sources) goes back
with HTTP 200. -/
def getQuestionsStatus (st : AppState) (idx : Nat) : Nat :=
  match (if idx = 1 then st.analysis1 else st.analysis2) with
  | none => 404
  | some _ => 200

/-- The body of a store-context request as the handler sees it after
json.Unmarshal: either undecodable JSON or a decoded context. -/
inductive CtxPayload
  | invalidJson
  | wellFormed (ctx : DatasetContext)

/-- A plain HTTP response with a text body. -/
structure TextResponse where
  status : Nat
  body : String
deriving DecidableEq

/-- Store a context into its slot. -/
def putContext (st : AppState) (idx : Nat) (ctx : DatasetContext) : AppState :=
  if idx = 1 then { st with context1 := some ctx }
  else if idx = 2 then { st with context2 := some ctx }
  else st

/-- The Go handler StoreContext: undecodable JSON answers the fixed body
Invalid JSON with HTTP 400 and stores nothing; a decoded context goes to
ContextService.StoreContext, whose validation (outside these sources,
modelled as the abstract validate argument returning an error message on
rejection) either rejects with HTTP 400 carrying the validator's message
or stores the context and answers success. -/
def storeContextHandler (validate : DatasetContext → Option String)
    (st : AppState) (idx : Nat) (payload : CtxPayload) :
    TextResponse × AppState :=
  match payload with
  | .invalidJson => (⟨400, "Invalid JSON"⟩, st)
  | .wellFormed ctx =>
      match validate ctx with
      | some msg => (⟨400, msg⟩, st)
      | none => (⟨200, "success"⟩, putContext st idx ctx)

/-- The JSON field names of a DatasetContext payload, as the context
wizard sends them. -/
def ctxFieldNames : List String :=
  ["dataset_purpose", "business_domain", "key_entities", "temporal_context",
   "column_descriptions", "relationships", "custom_mappings", "exclusions"]

/-- Does a response body carry field-level detail, in the sense of naming
at least one field of the DatasetContext payload? -/
def namesAField (body : String) : Bool :=
  ctxFieldNames.any (fun f => strContains body f)

/-! ## ConnectDB (Go handler, src part_000 lines 55 to 81) -/

/-- The decoded DataSourceConfig; only the Type field steers the handler,
the connection parameters travel to the data source opaquely. -/
structure DataSourceConfig where
  type : String
  dsn : String
deriving DecidableEq

/-- The body of a connect request after json.Decode. -/
inductive ConnPayload
  | invalidJson
  | config (cfg : DataSourceConfig)

/-- What ConnectDB leaves behind: the response status, the stored
CurrentDB afterwards, and the connections it closed. -/
structure ConnectOutcome (DS : Type) where
  status : Nat
  currentDB : Option DS
  closed : List DS

/-- The Go handler ConnectDB: invalid JSON answers 400, a Type other than
postgres answers 400, a failed connection attempt answers 500 - all three
leaving CurrentDB untouched and closing nothing; only after
PostgresDataSource.Connect succeeds is the previous connection closed and
replaced.  The connection attempt itself crosses into database drivers
outside these sources and enters as the abstract connect argument. -/
def connectDBHandler {DS : Type} (connect : DataSourceConfig → Except String DS)
    (current : Option DS) (payload : ConnPayload) : ConnectOutcome DS :=
  match payload with
  | .invalidJson => ⟨400, current, []⟩
  | .config cfg =>
      if cfg.type ≠ "postgres" then ⟨400, current, []⟩
      else
        match connect cfg with
        | .error _ => ⟨500, current, []⟩
        | .ok ds => ⟨200, some ds, current.toList⟩

/-! ## Concrete sample data, shared by the witnesses below -/

/-- The empty application state: nothing uploaded, no contexts. -/
def stEmpty : AppState := ⟨none, none, none, none⟩

/-- A numeric id column in file 1. -/
def pUserId : ColumnProfile := ⟨"user_id", .numeric, 0, 3, .plain, []⟩

/-- A text column in file 1. -/
def pName : ColumnProfile := ⟨"name", .text, 0, 3, .plain, []⟩

/-- A numeric id column in file 2. -/
def pCustomerId : ColumnProfile := ⟨"customer_id", .numeric, 0, 3, .plain, []⟩

/-- A text column in file 2. -/
def pFullName : ColumnProfile := ⟨"full_name", .text, 0, 3, .plain, []⟩

/-- A sample context: Sales domain, one custom mapping, no exclusions. -/
def sampleCtx : DatasetContext :=
  ⟨"crm export", "Sales", [], [], [("user_id", "customer_id")], []⟩

/-- An empty calibration model. -/
def sampleCal : CalibrationModel := ⟨[]⟩

/-- A constant structural-signal function for the samples. -/
def sampleSig : ColumnProfile → ColumnProfile → SignalScores :=
  fun _ _ => ⟨3/5, 7/10, 1/2, 0⟩

/-- The semantic model being unavailable for every pair. -/
def sampleSemNone : ColumnProfile → ColumnProfile → Option ℚ :=
  fun _ _ => none

/-- Column profiles of sample file 1. -/
def sampleProfiles1 : List ColumnProfile := [pUserId, pName]

/-- Column profiles of sample file 2. -/
def sampleProfiles2 : List ColumnProfile := [pCustomerId, pFullName]

/-- The sample graph over the two sample files. -/
def sampleGraph : SimilarityGraph :=
  GenerateGraph sampleProfiles1 sampleProfiles2 sampleCtx sampleCtx
    initialWeights sampleCal sampleSig sampleSemNone

/-- A one-pair sample graph whose only pair is custom-mapped. -/
def sampleGraphCustom : SimilarityGraph :=
  GenerateGraph [pUserId] [pCustomerId] sampleCtx sampleCtx
    initialWeights sampleCal sampleSig sampleSemNone

/-- A one-pair sample graph whose only pair is scored normally. -/
def sampleGraphPlain : SimilarityGraph :=
  GenerateGraph [pName] [pFullName] sampleCtx sampleCtx
    initialWeights sampleCal sampleSig sampleSemNone

/-- The custom-mapped sample edge. -/
def sampleEdgeCustom : CandidateEdge :=
  scorePair sampleCtx sampleCtx initialWeights sampleCal
    (sampleSig pUserId pCustomerId) (sampleSemNone pUserId pCustomerId)
    "user_id" "customer_id"

/-- The normally scored sample edge for the name columns. -/
def sampleEdgePlain : CandidateEdge :=
  scorePair sampleCtx sampleCtx initialWeights sampleCal
    (sampleSig pName pFullName) (sampleSemNone pName pFullName)
    "name" "full_name"

/-- A sample state with both files profiled and both contexts stored. -/
def sampleState : AppState :=
  ⟨some sampleProfiles1, some sampleProfiles2, some sampleCtx, some sampleCtx⟩

/-! ## Theorems: base64 and the crypto round trip -/

theorem charSextet_sextetChar : ∀ n < 64, charSextet (sextetChar n) = n := by
  decide

theorem sextetChar_ne_pad : ∀ n < 64, sextetChar n ≠ '=' := by
  decide

theorem b64_roundtrip :
    ∀ l : List Nat, (∀ b ∈ l, b < 256) → b64decode (b64encode l) = l
  | [], _ => rfl
  | [a], h => by
      have ha : a < 256 := h a (by simp)
      have h1 : charSextet (sextetChar (a / 4)) = a / 4 :=
        charSextet_sextetChar _ (by omega)
      have h2 : charSextet (sextetChar (a % 4 * 16)) = a % 4 * 16 :=
        charSextet_sextetChar _ (by omega)
      simp only [b64encode, b64decode, h1, h2, if_pos]
      have e1 : a / 4 * 4 + a % 4 * 16 / 16 = a := by omega
      rw [e1]
  | [a, b], h => by
      have ha : a < 256 := h a (by simp)
      have hb : b < 256 := h b (by simp)
      have h1 : charSextet (sextetChar (a / 4)) = a / 4 :=
        charSextet_sextetChar _ (by omega)
      have h2 : charSextet (sextetChar (a % 4 * 16 + b / 16)) =
          a % 4 * 16 + b / 16 :=
        charSextet_sextetChar _ (by omega)
      have h3 : charSextet (sextetChar (b % 16 * 4)) = b % 16 * 4 :=
        charSextet_sextetChar _ (by omega)
      have n3 : ¬ sextetChar (b % 16 * 4) = '=' := sextetChar_ne_pad _ (by omega)
      simp only [b64encode, b64decode, h1, h2, h3, if_neg n3, if_pos]
      have e1 : a / 4 * 4 + (a % 4 * 16 + b / 16) / 16 = a := by omega
      have e2 : (a % 4 * 16 + b / 16) % 16 * 16 + b % 16 * 4 / 4 = b := by omega
      rw [e1, e2]
  | a :: b :: c :: rest, h => by
      have ha : a < 256 := h a (by simp)
      have hb : b < 256 := h b (by simp)
      have hc : c < 256 := h c (by simp)
      have ih := b64_roundtrip rest (fun x hx => h x (by simp [hx]))
      have h1 : charSextet (sextetChar (a / 4)) = a / 4 :=
        charSextet_sextetChar _ (by omega)
      have h2 : charSextet (sextetChar (a % 4 * 16 + b / 16)) =
          a % 4 * 16 + b / 16 :=
        charSextet_sextetChar _ (by omega)
      have h3 : charSextet (sextetChar (b % 16 * 4 + c / 64)) =
          b % 16 * 4 + c / 64 :=
        charSextet_sextetChar _ (by omega)
      have h4 : charSextet (sextetChar (c % 64)) = c % 64 :=
        charSextet_sextetChar _ (by omega)
      have n3 : ¬ sextetChar (b % 16 * 4 + c / 64) = '=' :=
        sextetChar_ne_pad _ (by omega)
      have n4 : ¬ sextetChar (c % 64) = '=' := sextetChar_ne_pad _ (by omega)
      simp only [b64encode, b64decode, h1, h2, h3, h4, if_neg n3, if_neg n4, ih]
      have e1 : a / 4 * 4 + (a % 4 * 16 + b / 16) / 16 = a := by omega
      have e2 : (a % 4 * 16 + b / 16) % 16 * 16 + (b % 16 * 4 + c / 64) / 4 = b := by
        omega
      have e3 : (b % 16 * 4 + c / 64) % 4 * 64 + c % 64 = c := by omega
      rw [e1, e2, e3]

/-- Claim C9: round trip of the secure-storage API.  With Web Crypto and
localStorage available and the fingerprint and salt unchanged between the
two calls (embedded as one fixed abstract cipher pair in which the derived
key is baked, satisfying the AES-GCM inverse law and producing bytes),
secureRetrieve after secureStore returns exactly the stored value, and
decryptValue inverts encryptValue. -/
theorem c9_secure_storage_roundtrip
    (enc dec : List Nat → List Nat → List Nat)
    (st : List (String × List Char)) (key : String) (iv value : List Nat)
    (hiv : iv.length = 12)
    (hivb : ∀ b ∈ iv, b < 256)
    (hctb : ∀ b ∈ enc iv value, b < 256)
    (hinv : dec iv (enc iv value) = value) :
    secureRetrieve dec (secureStore enc iv st key value) key = some value ∧
    decryptValue dec (encryptValue enc iv value) = value := by
  have hbytes : ∀ b ∈ iv ++ enc iv value, b < 256 := by
    intro b hb
    rcases List.mem_append.mp hb with h | h
    exacts [hivb b h, hctb b h]
  have hrt : b64decode (b64encode (iv ++ enc iv value)) = iv ++ enc iv value :=
    b64_roundtrip _ hbytes
  have hdec : decryptValue dec (encryptValue enc iv value) = value := by
    unfold decryptValue encryptValue
    rw [hrt, ← hiv, List.take_left, List.drop_left]
    exact hinv
  refine ⟨?_, hdec⟩
  unfold secureRetrieve secureStore lsSet lsGet
  rw [List.find?_cons_of_pos _ (by simp)]
  simpa using hdec

/-- Witness for C9 at the identity cipher, a twelve-byte IV and a concrete
two-byte value. -/
theorem c9_secure_storage_roundtrip_witness :
    secureRetrieve (fun _ d => d)
        (secureStore (fun _ d => d) (List.replicate 12 0) [] "k" [104, 105])
        "k" = some [104, 105] ∧
    decryptValue (fun _ d => d)
        (encryptValue (fun _ d => d) (List.replicate 12 0) [104, 105]) =
      [104, 105] :=
  c9_secure_storage_roundtrip (fun _ d => d) (fun _ d => d) [] "k"
    (List.replicate 12 0) [104, 105] (by decide) (by decide) (by decide) rfl

/-! ## Theorems: the Weight Learner invariant -/

theorem clampW_cases (x : ℚ) :
    clampW x = x ∧ 1/20 ≤ x ∧ x ≤ 4/5 ∨
    clampW x = 1/20 ∧ x ≤ 1/20 ∨
    clampW x = 4/5 ∧ 4/5 ≤ x := by
  unfold clampW
  rcases le_total x (1/20) with h | h
  · exact Or.inr (Or.inl
      ⟨by rw [min_eq_right (by linarith : x ≤ (4/5 : ℚ)), max_eq_left h], h⟩)
  · rcases le_total x (4/5) with h' | h'
    · exact Or.inl ⟨by rw [min_eq_right h', max_eq_right h], h, h'⟩
    · exact Or.inr (Or.inr
        ⟨by rw [min_eq_left h', max_eq_right (by norm_num)], h'⟩)

theorem le_clampW (x : ℚ) : 1/20 ≤ clampW x := le_max_left _ _

theorem clampW_le (x : ℚ) : clampW x ≤ 4/5 :=
  max_le (by norm_num) (min_le_left _ _)

set_option maxHeartbeats 1600000 in
/-- After renormalizing to sum exactly 1, clamping the components moves
the sum by at most 7/100, as long as no component holds more than 87
percent or less than 3 percent of the pre-normalization mass. -/
theorem clamp_renorm_sum (w1 w2 w3 s : ℚ) (hs : s = w1 + w2 + w3)
    (hpos : 0 < s)
    (h1l : 3 * s / 100 ≤ w1) (h1u : w1 ≤ 87 * s / 100)
    (h2l : 3 * s / 100 ≤ w2) (h2u : w2 ≤ 87 * s / 100)
    (h3l : 3 * s / 100 ≤ w3) (h3u : w3 ≤ 87 * s / 100) :
    |clampW (w1 / s) + clampW (w2 / s) + clampW (w3 / s) - 1| ≤ 7/100 := by
  set n1 := w1 / s with hn1
  set n2 := w2 / s with hn2
  set n3 := w3 / s with hn3
  have hsum : n1 + n2 + n3 = 1 := by
    have e : n1 + n2 + n3 = (w1 + w2 + w3) / s := by
      rw [hn1, hn2, hn3]; ring
    rw [e, ← hs, div_self (ne_of_gt hpos)]
  have b1l : 3/100 ≤ n1 := by rw [hn1, le_div_iff₀ hpos]; linarith
  have b1u : n1 ≤ 87/100 := by rw [hn1, div_le_iff₀ hpos]; linarith
  have b2l : 3/100 ≤ n2 := by rw [hn2, le_div_iff₀ hpos]; linarith
  have b2u : n2 ≤ 87/100 := by rw [hn2, div_le_iff₀ hpos]; linarith
  have b3l : 3/100 ≤ n3 := by rw [hn3, le_div_iff₀ hpos]; linarith
  have b3u : n3 ≤ 87/100 := by rw [hn3, div_le_iff₀ hpos]; linarith
  rcases clampW_cases n1 with ⟨e1, hx1, hy1⟩ | ⟨e1, hx1⟩ | ⟨e1, hx1⟩ <;>
    rcases clampW_cases n2 with ⟨e2, hx2, hy2⟩ | ⟨e2, hx2⟩ | ⟨e2, hx2⟩ <;>
      rcases clampW_cases n3 with ⟨e3, hx3, hy3⟩ | ⟨e3, hx3⟩ | ⟨e3, hx3⟩ <;>
        (rw [e1, e2, e3, abs_le]; constructor <;> linarith)

/-- One renormalize-then-clamp pass re-establishes the WeightVector
invariant from the mass bounds of the nudged vector. -/
theorem wvinv_core (a b c : ℚ) (hpos : 0 < a + b + c)
    (h1l : 3 * (a + b + c) / 100 ≤ a) (h1u : a ≤ 87 * (a + b + c) / 100)
    (h2l : 3 * (a + b + c) / 100 ≤ b) (h2u : b ≤ 87 * (a + b + c) / 100)
    (h3l : 3 * (a + b + c) / 100 ≤ c) (h3u : c ≤ 87 * (a + b + c) / 100) :
    WVInv (clamped (renormalized ⟨a, b, c⟩)) := by
  have hsum : wvSum (⟨a, b, c⟩ : WeightVector) = a + b + c := rfl
  refine ⟨le_clampW _, clampW_le _, le_clampW _, clampW_le _,
    le_clampW _, clampW_le _, ?_⟩
  show |clampW (a / (a + b + c)) + clampW (b / (a + b + c)) +
    clampW (c / (a + b + c)) - 1| ≤ 7/100
  exact clamp_renorm_sum a b c (a + b + c) rfl hpos h1l h1u h2l h2u h3l h3u

/-- Every Weight Learner update preserves the WeightVector invariant. -/
theorem wvinv_update (w : WeightVector) (hw : WVInv w) (fb : FeedbackRecord) :
    WVInv (updateWeights w fb) := by
  obtain ⟨ha1, ha2, hb1, hb2, hc1, hc2, hsum⟩ := hw
  rw [abs_le] at hsum
  obtain ⟨hs1, hs2⟩ := hsum
  have hS1 : 93/100 ≤ wvSum w := by linarith
  have hS2 : wvSum w ≤ 107/100 := by linarith
  unfold wvSum at hS1 hS2
  unfold updateWeights
  cases dominantSignal w fb.signals <;> cases hacc : fb.accepted <;>
    simp only [nudged, learningRate, hacc, if_true, if_false, Bool.false_eq_true,
      ite_true, ite_false] <;>
    exact wvinv_core _ _ _ (by linarith) (by linarith) (by linarith)
      (by linarith) (by linarith) (by linarith) (by linarith)

/-- Claim C3: the WeightVector invariant - initially at the vector
0.45, 0.35, 0.20 and after every Weight Learner update from a
FeedbackRecord, every component lies in the 0.05 to 0.8 band and the
three components sum to 1 within the small epsilon 7/100. -/
theorem c3_weight_vector_invariant (w : WeightVector) (hw : ReachableWV w) :
    WVInv w := by
  induction hw with
  | init =>
      refine ⟨by norm_num [initialWeights], by norm_num [initialWeights],
        by norm_num [initialWeights], by norm_num [initialWeights],
        by norm_num [initialWeights], by norm_num [initialWeights], ?_⟩
      norm_num [initialWeights, wvSum]
  | step w fb _ ih => exact wvinv_update w ih fb

/-- Witness for C3 at the initial weight vector. -/
theorem c3_weight_vector_invariant_witness :
    ReachableWV initialWeights ∧ WVInv initialWeights :=
  ⟨ReachableWV.init, c3_weight_vector_invariant initialWeights ReachableWV.init⟩

/-! ## Theorems: edge order and graph membership -/

theorem edgeLE_total (a b : CandidateEdge) :
    edgeLE a b = true ∨ edgeLE b a = true := by
  unfold edgeLE
  rcases lt_trichotomy a.file1_column b.file1_column with h | h | h
  · left; simp [h]
  · rcases le_total b.confidence a.confidence with h' | h'
    · left; simp [h, h']
    · right; simp [h.symm, h']
  · right; simp [h]

theorem edgeLE_trans (a b c : CandidateEdge) (h1 : edgeLE a b = true)
    (h2 : edgeLE b c = true) : edgeLE a c = true := by
  unfold edgeLE at h1 h2 ⊢
  simp only [Bool.or_eq_true, Bool.and_eq_true, decide_eq_true_eq] at h1 h2 ⊢
  rcases h1 with h1 | ⟨h1e, h1c⟩ <;> rcases h2 with h2 | ⟨h2e, h2c⟩
  · exact Or.inl (lt_trans h1 h2)
  · exact Or.inl (h2e ▸ h1)
  · exact Or.inl (h1e ▸ h2)
  · exact Or.inr ⟨h1e.trans h2e, le_trans h2c h1c⟩

theorem mem_insertEdge (x e : CandidateEdge) (l : List CandidateEdge) :
    x ∈ insertEdge e l ↔ x = e ∨ x ∈ l := by
  induction l with
  | nil => simp [insertEdge]
  | cons f r ih =>
      unfold insertEdge
      split
      · simp [List.mem_cons]
      · simp only [List.mem_cons, ih]
        tauto

theorem pairwise_insertEdge (e : CandidateEdge) (l : List CandidateEdge)
    (hl : l.Pairwise (fun a b => edgeLE a b = true)) :
    (insertEdge e l).Pairwise (fun a b => edgeLE a b = true) := by
  induction l with
  | nil => simp [insertEdge]
  | cons f r ih =>
      obtain ⟨hf, hr⟩ := List.pairwise_cons.mp hl
      unfold insertEdge
      split
      · rename_i hle
        refine List.Pairwise.cons ?_ hl
        intro x hx
        rcases List.mem_cons.mp hx with rfl | hx
        · exact hle
        · exact edgeLE_trans _ _ _ hle (hf x hx)
      · rename_i hnle
        have hfe : edgeLE f e = true := by
          rcases edgeLE_total e f with h | h
          · exact absurd h hnle
          · exact h
        refine List.Pairwise.cons ?_ (ih hr)
        intro x hx
        rcases (mem_insertEdge x e r).mp hx with rfl | hx
        · exact hfe
        · exact hf x hx

theorem sortEdges_pairwise (l : List CandidateEdge) :
    (sortEdges l).Pairwise (fun a b => edgeLE a b = true) := by
  induction l with
  | nil => simp [sortEdges]
  | cons e r ih => exact pairwise_insertEdge e _ ih

theorem mem_sortEdges (x : CandidateEdge) (l : List CandidateEdge) :
    x ∈ sortEdges l ↔ x ∈ l := by
  induction l with
  | nil => simp [sortEdges]
  | cons e r ih =>
      unfold sortEdges
      rw [mem_insertEdge, ih, List.mem_cons]

theorem scorePair_file1 (c1 c2 : DatasetContext) (w : WeightVector)
    (cal : CalibrationModel) (s : SignalScores) (semRes : Option ℚ)
    (n1 n2 : String) :
    (scorePair c1 c2 w cal s semRes n1 n2).file1_column = n1 := by
  unfold scorePair
  split <;> rfl

theorem scorePair_file2 (c1 c2 : DatasetContext) (w : WeightVector)
    (cal : CalibrationModel) (s : SignalScores) (semRes : Option ℚ)
    (n1 n2 : String) :
    (scorePair c1 c2 w cal s semRes n1 n2).file2_column = n2 := by
  unfold scorePair
  split <;> rfl

/-- Every edge of a generated graph is the scored image of one profile
pair drawn from the two files. -/
theorem mem_generateGraph (ps1 ps2 : List ColumnProfile)
    (c1 c2 : DatasetContext) (w : WeightVector) (cal : CalibrationModel)
    (sig : ColumnProfile → ColumnProfile → SignalScores)
    (sem : ColumnProfile → ColumnProfile → Option ℚ) (e : CandidateEdge)
    (he : e ∈ (GenerateGraph ps1 ps2 c1 c2 w cal sig sem).edges) :
    ∃ p1 ∈ ps1, ∃ p2 ∈ ps2,
      e = scorePair c1 c2 w cal (sig p1 p2) (sem p1 p2) p1.name p2.name := by
  unfold GenerateGraph at he
  rw [mem_sortEdges] at he
  have he' := (List.mem_filter.mp he).1
  simp only [List.mem_flatMap, List.mem_map, List.mem_filter] at he'
  obtain ⟨p1, ⟨hp1, -⟩, p2, ⟨hp2, -⟩, rfl⟩ := he'
  exact ⟨p1, hp1, p2, hp2, rfl⟩

/-! ## Theorems: calibration and confidence bounds -/

theorem clampQ_mem (lo hi x : ℚ) (h : lo ≤ hi) :
    lo ≤ clampQ lo hi x ∧ clampQ lo hi x ≤ hi :=
  ⟨le_max_left _ _, max_le h (min_le_left _ _)⟩

theorem calBinAt_rate (cal : CalibrationModel) (hcal : CalWF cal) (x : ℚ)
    (hcount : ¬ (calBinAt cal x).count < minBinSamples) :
    0 ≤ (calBinAt cal x).rate ∧ (calBinAt cal x).rate ≤ 1 := by
  by_cases hlen : binIndex x < cal.bins.length
  · refine hcal _ ?_
    unfold calBinAt
    rw [cal.bins.getD_eq_getElem _ hlen]
    exact cal.bins.getElem_mem hlen
  · exfalso
    apply hcount
    unfold calBinAt
    rw [List.getD_eq_default _ _ (le_of_not_lt hlen)]
    norm_num [minBinSamples]

theorem calibrate_range (cal : CalibrationModel) (hcal : CalWF cal) (x : ℚ)
    (hx0 : 0 ≤ x) (hx1 : x ≤ 100) :
    0 ≤ calibrate cal x ∧ calibrate cal x ≤ 100 := by
  unfold calibrate
  split
  · exact ⟨hx0, hx1⟩
  · rename_i hcount
    obtain ⟨hr0, hr1⟩ := calBinAt_rate cal hcal x hcount
    have hc0 : (0 : ℚ) ≤ ((calBinAt cal x).count : ℚ) := Nat.cast_nonneg _
    have hm : ((minBinSamples : ℚ)) = 10 := by norm_num [minBinSamples]
    have hden : (0 : ℚ) < ((calBinAt cal x).count : ℚ) + (minBinSamples : ℚ) := by
      rw [hm]; linarith
    have hw0 : 0 ≤ ((calBinAt cal x).count : ℚ) /
        (((calBinAt cal x).count : ℚ) + (minBinSamples : ℚ)) :=
      div_nonneg hc0 (le_of_lt hden)
    have hw1 : ((calBinAt cal x).count : ℚ) /
        (((calBinAt cal x).count : ℚ) + (minBinSamples : ℚ)) ≤ 1 := by
      rw [div_le_one hden, hm]; linarith
    set g := ((calBinAt cal x).count : ℚ) /
      (((calBinAt cal x).count : ℚ) + (minBinSamples : ℚ))
    constructor
    · nlinarith
    · nlinarith

/-- Calibrating against an empty model returns the raw confidence. -/
theorem calibrate_empty (x : ℚ) : calibrate ⟨[]⟩ x = x := by
  unfold calibrate calBinAt
  rw [List.getD_nil]
  norm_num [minBinSamples]

/-- Members of a generated graph, the constructive direction: a
non-excluded pair whose scored edge passes the floor check appears in the
graph. -/
theorem generateGraph_mem_intro (ps1 ps2 : List ColumnProfile)
    (c1 c2 : DatasetContext) (w : WeightVector) (cal : CalibrationModel)
    (sig : ColumnProfile → ColumnProfile → SignalScores)
    (sem : ColumnProfile → ColumnProfile → Option ℚ)
    (p1 p2 : ColumnProfile) (hp1 : p1 ∈ ps1) (hp2 : p2 ∈ ps2)
    (hex1 : c1.exclusions.contains p1.name = false)
    (hex2 : c2.exclusions.contains p2.name = false)
    (hkept : edgeKept
      (scorePair c1 c2 w cal (sig p1 p2) (sem p1 p2) p1.name p2.name) = true) :
    scorePair c1 c2 w cal (sig p1 p2) (sem p1 p2) p1.name p2.name ∈
      (GenerateGraph ps1 ps2 c1 c2 w cal sig sem).edges := by
  unfold GenerateGraph
  rw [mem_sortEdges]
  refine List.mem_filter.mpr ⟨?_, hkept⟩
  simp only [List.mem_flatMap, List.mem_map, List.mem_filter]
  exact ⟨p1, ⟨hp1, by simpa using hex1⟩, p2, ⟨hp2, by simpa using hex2⟩, rfl⟩

theorem scorePair_conf_custom (c1 c2 : DatasetContext) (w : WeightVector)
    (cal : CalibrationModel) (s : SignalScores) (semRes : Option ℚ)
    (n1 n2 : String) (h : pairCustom c1 c2 n1 n2 = true) :
    (scorePair c1 c2 w cal s semRes n1 n2).confidence = 95 ∧
    (scorePair c1 c2 w cal s semRes n1 n2).type = EdgeType.custom := by
  unfold scorePair
  rw [if_pos h]
  exact ⟨rfl, rfl⟩

theorem scorePair_conf_noncustom (c1 c2 : DatasetContext) (w : WeightVector)
    (cal : CalibrationModel) (s : SignalScores) (semRes : Option ℚ)
    (n1 n2 : String) (h : pairCustom c1 c2 n1 n2 = false) :
    (scorePair c1 c2 w cal s semRes n1 n2).confidence =
      calibrate cal (clampQ 0 100 (rawScore w s (semValue semRes) * 100 +
        (domainBoost c1 c2 s.name_similarity + entityBoost c1 c2 n1 n2))) := by
  unfold scorePair
  rw [if_neg (by simp [h])]

/-! ## Theorems: the claims about the engine -/

/-- Claim C1: in every generated candidate graph, an edge for a column
pair carrying a custom mapping in the supplied DatasetContext has
calibrated confidence exactly 95 and type custom, for all values of its
computed signals, with no further context adjustment applied to it. -/
theorem c1_custom_mapping_pinned (ps1 ps2 : List ColumnProfile)
    (c1 c2 : DatasetContext) (w : WeightVector) (cal : CalibrationModel)
    (sig : ColumnProfile → ColumnProfile → SignalScores)
    (sem : ColumnProfile → ColumnProfile → Option ℚ) (e : CandidateEdge)
    (he : e ∈ (GenerateGraph ps1 ps2 c1 c2 w cal sig sem).edges)
    (hc : pairCustom c1 c2 e.file1_column e.file2_column = true) :
    e.confidence = 95 ∧ e.type = EdgeType.custom := by
  obtain ⟨p1, hp1, p2, hp2, rfl⟩ :=
    mem_generateGraph ps1 ps2 c1 c2 w cal sig sem e he
  rw [scorePair_file1, scorePair_file2] at hc
  exact scorePair_conf_custom c1 c2 w cal _ _ _ _ hc

/-- Witness for C1: the custom-mapped sample edge sits in the one-pair
sample graph at confidence 95 and type custom. -/
theorem c1_custom_mapping_pinned_witness :
    sampleEdgeCustom ∈ sampleGraphCustom.edges ∧
    pairCustom sampleCtx sampleCtx sampleEdgeCustom.file1_column
      sampleEdgeCustom.file2_column = true ∧
    sampleEdgeCustom.confidence = 95 ∧
    sampleEdgeCustom.type = EdgeType.custom := by
  have hedges : sampleGraphCustom.edges = [sampleEdgeCustom] := rfl
  have h1 : sampleEdgeCustom ∈ sampleGraphCustom.edges := by
    rw [hedges]
    exact List.mem_singleton.mpr rfl
  have h2 : pairCustom sampleCtx sampleCtx sampleEdgeCustom.file1_column
      sampleEdgeCustom.file2_column = true := rfl
  exact ⟨h1, h2,
    c1_custom_mapping_pinned [pUserId] [pCustomerId] sampleCtx
      sampleCtx initialWeights sampleCal sampleSig sampleSemNone
      sampleEdgeCustom h1 h2⟩

/-- Claim C2: every edge the engine produces carries a calibrated
confidence inside 0 to 100, and for non-custom pairs that confidence is
computed as the clamp of raw times 100 plus the boosts to 0 to 100,
passed to calibration. -/
theorem c2_confidence_in_range (ps1 ps2 : List ColumnProfile)
    (c1 c2 : DatasetContext) (w : WeightVector) (cal : CalibrationModel)
    (sig : ColumnProfile → ColumnProfile → SignalScores)
    (sem : ColumnProfile → ColumnProfile → Option ℚ)
    (hcal : CalWF cal) :
    (∀ e ∈ (GenerateGraph ps1 ps2 c1 c2 w cal sig sem).edges,
       0 ≤ e.confidence ∧ e.confidence ≤ 100) ∧
    (∀ s semRes n1 n2, pairCustom c1 c2 n1 n2 = false →
       (scorePair c1 c2 w cal s semRes n1 n2).confidence =
         calibrate cal (clampQ 0 100 (rawScore w s (semValue semRes) * 100 +
           (domainBoost c1 c2 s.name_similarity +
            entityBoost c1 c2 n1 n2)))) := by
  constructor
  · intro e he
    obtain ⟨p1, hp1, p2, hp2, rfl⟩ :=
      mem_generateGraph ps1 ps2 c1 c2 w cal sig sem e he
    cases hcu : pairCustom c1 c2 p1.name p2.name with
    | true =>
        rw [(scorePair_conf_custom c1 c2 w cal _ _ _ _ hcu).1]
        norm_num
    | false =>
        rw [scorePair_conf_noncustom c1 c2 w cal _ _ _ _ hcu]
        have hq := clampQ_mem 0 100
          (rawScore w (sig p1 p2) (semValue (sem p1 p2)) * 100 +
            (domainBoost c1 c2 (sig p1 p2).name_similarity +
             entityBoost c1 c2 p1.name p2.name)) (by norm_num)
        exact calibrate_range cal hcal _ hq.1 hq.2
  · intro s semRes n1 n2 h
    exact scorePair_conf_noncustom c1 c2 w cal s semRes n1 n2 h

/-- Witness for C2 at the sample inputs: the empty calibration model is
well formed, and every sample edge's confidence lies in range. -/
theorem c2_confidence_in_range_witness :
    CalWF sampleCal ∧
    (∀ e ∈ sampleGraph.edges, 0 ≤ e.confidence ∧ e.confidence ≤ 100) :=
  have hcal : CalWF sampleCal := by
    intro b hb
    simp [sampleCal] at hb
  ⟨hcal,
    (c2_confidence_in_range sampleProfiles1 sampleProfiles2 sampleCtx
      sampleCtx initialWeights sampleCal sampleSig sampleSemNone hcal).1⟩

/-- Claim C5: GenerateGraph is a pure function of the profiles, the
contexts and the learner and calibrator snapshots - two calls with the
same arguments return the same graph, edge order included - and the edge
sequence of every returned graph is sorted by file1 column ascending,
then confidence descending. -/
theorem c5_deterministic_sorted (ps1 ps2 : List ColumnProfile)
    (c1 c2 : DatasetContext) (w : WeightVector) (cal : CalibrationModel)
    (sig : ColumnProfile → ColumnProfile → SignalScores)
    (sem : ColumnProfile → ColumnProfile → Option ℚ) :
    GenerateGraph ps1 ps2 c1 c2 w cal sig sem =
      GenerateGraph ps1 ps2 c1 c2 w cal sig sem ∧
    (GenerateGraph ps1 ps2 c1 c2 w cal sig sem).edges.Pairwise
      (fun a b => edgeLE a b = true) ∧
    (∀ a b : CandidateEdge, edgeLE a b = true ↔
       (a.file1_column < b.file1_column ∨
        (a.file1_column = b.file1_column ∧ b.confidence ≤ a.confidence))) := by
  refine ⟨rfl, ?_, ?_⟩
  · unfold GenerateGraph
    exact sortEdges_pairwise _
  · intro a b
    unfold edgeLE
    simp

/-- Claim C6: the 10-point domain boost is granted exactly when both
business domains are non-empty and equal case-insensitively and the name
similarity exceeds 0.5; under any other condition it is 0, and for
non-custom pairs it enters the confidence through the clamp-then-calibrate
formula. -/
theorem c6_domain_boost_iff (c1 c2 : DatasetContext) (ns : ℚ)
    (w : WeightVector) (cal : CalibrationModel) :
    (domainBoost c1 c2 ns = 10 ↔
      (c1.business_domain ≠ "" ∧ c2.business_domain ≠ "" ∧
       lowerStr c1.business_domain = lowerStr c2.business_domain ∧
       1/2 < ns)) ∧
    (domainBoost c1 c2 ns = 10 ∨ domainBoost c1 c2 ns = 0) ∧
    (∀ s semRes n1 n2, s.name_similarity = ns →
       pairCustom c1 c2 n1 n2 = false →
       (scorePair c1 c2 w cal s semRes n1 n2).confidence =
         calibrate cal (clampQ 0 100 (rawScore w s (semValue semRes) * 100 +
           (domainBoost c1 c2 ns + entityBoost c1 c2 n1 n2)))) := by
  refine ⟨?_, ?_, ?_⟩
  · unfold domainBoost
    split
    · rename_i h
      exact ⟨fun _ => h, fun _ => rfl⟩
    · rename_i h
      constructor
      · intro h10
        norm_num at h10
      · intro hc
        exact absurd hc h
  · unfold domainBoost
    split
    · exact Or.inl rfl
    · exact Or.inr rfl
  · intro s semRes n1 n2 hns h
    rw [← hns]
    exact scorePair_conf_noncustom c1 c2 w cal s semRes n1 n2 h

/-- Witness for C6: with both domains Sales and name similarity 0.55 the
boost is exactly 10, and the plain sample pair's confidence follows the
formula. -/
theorem c6_domain_boost_iff_witness :
    domainBoost sampleCtx sampleCtx (11/20) = 10 ∧
    sampleEdgePlain.confidence =
      calibrate sampleCal (clampQ 0 100
        (rawScore initialWeights (sampleSig pName pFullName)
            (semValue (sampleSemNone pName pFullName)) * 100 +
          (domainBoost sampleCtx sampleCtx (3/5) +
           entityBoost sampleCtx sampleCtx "name" "full_name"))) :=
  ⟨(c6_domain_boost_iff sampleCtx sampleCtx (11/20) initialWeights
      sampleCal).1.mpr ⟨by decide, by decide, rfl, by norm_num⟩,
   (c6_domain_boost_iff sampleCtx sampleCtx (3/5) initialWeights
      sampleCal).2.2 (sampleSig pName pFullName)
      (sampleSemNone pName pFullName) "name" "full_name" rfl rfl⟩

/-- Claim C7: with the external semantic call unavailable for every pair,
a scoring request against stored profiles still succeeds (only a missing
profile can fail it), and every affected - that is, not custom-mapped -
edge carries the neutral semantic score one half and type heuristic. -/
theorem c7_semantic_fallback (w : WeightVector) (cal : CalibrationModel)
    (sig : ColumnProfile → ColumnProfile → SignalScores)
    (sem : ColumnProfile → ColumnProfile → Option ℚ)
    (hsem : ∀ p q, sem p q = none) :
    (∀ st : AppState, ∀ ps1 ps2, st.analysis1 = some ps1 →
       st.analysis2 = some ps2 →
       serviceGenerateGraph w cal sig sem st =
         .ok (GenerateGraph ps1 ps2 (st.context1.getD emptyContext)
           (st.context2.getD emptyContext) w cal sig sem)) ∧
    (∀ ps1 ps2 c1 c2, ∀ e ∈ (GenerateGraph ps1 ps2 c1 c2 w cal sig sem).edges,
       pairCustom c1 c2 e.file1_column e.file2_column = false →
       e.signals.semantic_score = 1/2 ∧ e.type = EdgeType.heuristic) := by
  constructor
  · intro st ps1 ps2 h1 h2
    unfold serviceGenerateGraph
    rw [h1, h2]
  · intro ps1 ps2 c1 c2 e he hnc
    obtain ⟨p1, hp1, p2, hp2, rfl⟩ :=
      mem_generateGraph ps1 ps2 c1 c2 w cal sig sem e he
    rw [scorePair_file1, scorePair_file2] at hnc
    unfold scorePair
    rw [if_neg (by simp [hnc]), hsem]
    exact ⟨rfl, rfl⟩

/-- Witness for C7: the sample request with the semantic model down still
answers with a graph, and the plain sample edge of the one-pair plain
graph is neutral and heuristic. -/
theorem c7_semantic_fallback_witness :
    serviceGenerateGraph initialWeights sampleCal sampleSig sampleSemNone
        sampleState = .ok sampleGraph ∧
    sampleEdgePlain ∈ sampleGraphPlain.edges ∧
    sampleEdgePlain.signals.semantic_score = 1/2 ∧
    sampleEdgePlain.type = EdgeType.heuristic := by
  have hc7 := c7_semantic_fallback initialWeights sampleCal sampleSig
    sampleSemNone (fun _ _ => rfl)
  have hnc : pairCustom sampleCtx sampleCtx "name" "full_name" = false := rfl
  have hdb : domainBoost sampleCtx sampleCtx
      ((sampleSig pName pFullName).name_similarity) = 10 := by
    unfold domainBoost
    rw [if_pos]
    refine ⟨by decide, by decide, rfl, ?_⟩
    norm_num [sampleSig]
  have heb : entityBoost sampleCtx sampleCtx "name" "full_name" = 0 := rfl
  have hconf : sampleEdgePlain.confidence = 1361/20 := by
    have h1 := scorePair_conf_noncustom sampleCtx sampleCtx initialWeights
      sampleCal (sampleSig pName pFullName) (sampleSemNone pName pFullName)
      "name" "full_name" hnc
    rw [show sampleEdgePlain.confidence =
        (scorePair sampleCtx sampleCtx initialWeights sampleCal
          (sampleSig pName pFullName) (sampleSemNone pName pFullName)
          "name" "full_name").confidence from rfl, h1, hdb, heb,
      show sampleCal = (⟨[]⟩ : CalibrationModel) from rfl, calibrate_empty]
    have hraw : rawScore initialWeights (sampleSig pName pFullName)
        (semValue (sampleSemNone pName pFullName)) = 1161/2000 := by
      norm_num [rawScore, structuralScore, initialWeights, sampleSig,
        semValue, sampleSemNone]
    rw [hraw]
    unfold clampQ
    rw [min_eq_right (by norm_num), max_eq_right (by norm_num)]
    norm_num
  have hkept : edgeKept sampleEdgePlain = true := by
    unfold edgeKept
    rw [hconf]
    norm_num [confidenceFloor]
  have hmem : sampleEdgePlain ∈ sampleGraphPlain.edges :=
    generateGraph_mem_intro [pName] [pFullName] sampleCtx sampleCtx
      initialWeights sampleCal sampleSig sampleSemNone pName pFullName
      (by simp) (by simp) rfl rfl hkept
  have h2 := hc7.2 [pName] [pFullName] sampleCtx sampleCtx
    sampleEdgePlain hmem hnc
  exact ⟨hc7.1 sampleState sampleProfiles1 sampleProfiles2 rfl rfl,
    hmem, h2.1, h2.2⟩

/-! ## Theorems: the HTTP handlers -/

/-- Counterexample for C4: with no profile stored for either slot, the
similarity-graph request answers HTTP 500 through the Go handler, not the
not-found status 404 the claim demands. -/
theorem c4_counterexample :
    (getSimilarityGraphHandler initialWeights sampleCal sampleSig
      sampleSemNone stEmpty).status = 500 ∧
    ¬ (getSimilarityGraphHandler initialWeights sampleCal sampleSig
      sampleSemNone stEmpty).status = 404 := by
  constructor
  · rfl
  · intro h
    simp [getSimilarityGraphHandler, serviceGenerateGraph, stEmpty] at h

/-- Claim C4 as amended: a scoring request against a slot with no stored
profile fails - the service reports the not-found condition, but the Go
similarity handler surfaces it as HTTP 500 rather than 404 - and a graph
is produced, with HTTP 200, exactly when profiles exist for both slots;
the questions endpoint does answer 404 for a missing analysis. -/
theorem c4_missing_profile_fails (w : WeightVector) (cal : CalibrationModel)
    (sig : ColumnProfile → ColumnProfile → SignalScores)
    (sem : ColumnProfile → ColumnProfile → Option ℚ) (st : AppState) :
    (st.analysis1 = none ∨ st.analysis2 = none →
       serviceGenerateGraph w cal sig sem st = .error .profileNotFound ∧
       (getSimilarityGraphHandler w cal sig sem st).status = 500 ∧
       (getSimilarityGraphHandler w cal sig sem st).graph = none) ∧
    (∀ ps1 ps2, st.analysis1 = some ps1 → st.analysis2 = some ps2 →
       (getSimilarityGraphHandler w cal sig sem st).status = 200 ∧
       (getSimilarityGraphHandler w cal sig sem st).graph =
         some (GenerateGraph ps1 ps2 (st.context1.getD emptyContext)
           (st.context2.getD emptyContext) w cal sig sem)) ∧
    (st.analysis1 = none → getQuestionsStatus st 1 = 404) ∧
    (st.analysis2 = none → getQuestionsStatus st 2 = 404) := by
  obtain ⟨a1, a2, ctx1, ctx2⟩ := st
  cases a1 <;> cases a2 <;>
    simp [serviceGenerateGraph, getSimilarityGraphHandler, getQuestionsStatus]

/-- Witness for C4 as amended: the empty state fails with 500 and the
fully profiled sample state produces the graph with 200. -/
theorem c4_missing_profile_fails_witness :
    ((getSimilarityGraphHandler initialWeights sampleCal sampleSig
        sampleSemNone stEmpty).status = 500 ∧
     (getSimilarityGraphHandler initialWeights sampleCal sampleSig
        sampleSemNone stEmpty).graph = none) ∧
    ((getSimilarityGraphHandler initialWeights sampleCal sampleSig
        sampleSemNone sampleState).status = 200 ∧
     getQuestionsStatus stEmpty 1 = 404) :=
  have h1 := (c4_missing_profile_fails initialWeights sampleCal sampleSig
    sampleSemNone stEmpty).1 (Or.inl rfl)
  have h2 := (c4_missing_profile_fails initialWeights sampleCal sampleSig
    sampleSemNone sampleState).2.1 sampleProfiles1 sampleProfiles2 rfl rfl
  have h3 := (c4_missing_profile_fails initialWeights sampleCal sampleSig
    sampleSemNone stEmpty).2.2.1 rfl
  ⟨⟨h1.2.1, h1.2.2⟩, h2.1, h3⟩

/-- Counterexample for C8: a syntactically malformed payload is rejected
with HTTP 400 and nothing stored, but the response body is the fixed
string Invalid JSON, which names no field of the DatasetContext payload -
no field-level detail is included. -/
theorem c8_counterexample :
    (storeContextHandler (fun _ => none) stEmpty 1 .invalidJson).1.status
        = 400 ∧
    (storeContextHandler (fun _ => none) stEmpty 1 .invalidJson).2
        = stEmpty ∧
    namesAField
      (storeContextHandler (fun _ => none) stEmpty 1 .invalidJson).1.body
        = false := by
  refine ⟨rfl, rfl, ?_⟩
  decide

/-- Claim C8 as amended: a malformed store-context request is rejected
with HTTP 400 before anything reaches the scorer and no context is
stored; a validator rejection carries the validator's message (which per
the spec names the field), while undecodable JSON gets the fixed
message Invalid JSON without field-level detail. -/
theorem c8_malformed_context_rejected
    (validate : DatasetContext → Option String) (st : AppState) (idx : Nat)
    (payload : CtxPayload) :
    (payload = .invalidJson →
       storeContextHandler validate st idx payload =
         (⟨400, "Invalid JSON"⟩, st)) ∧
    (∀ ctx msg, payload = .wellFormed ctx → validate ctx = some msg →
       storeContextHandler validate st idx payload = (⟨400, msg⟩, st)) := by
  constructor
  · rintro rfl
    rfl
  · rintro ctx msg rfl hv
    simp [storeContextHandler, hv]

/-- Witness for C8 as amended, at a rejecting validator and both kinds of
malformed payload. -/
theorem c8_malformed_context_rejected_witness :
    storeContextHandler (fun _ => some "exclusions must be a list") stEmpty 1
        .invalidJson = (⟨400, "Invalid JSON"⟩, stEmpty) ∧
    storeContextHandler (fun _ => some "exclusions must be a list") stEmpty 1
        (.wellFormed emptyContext) =
      (⟨400, "exclusions must be a list"⟩, stEmpty) :=
  ⟨(c8_malformed_context_rejected (fun _ => some "exclusions must be a list")
      stEmpty 1 .invalidJson).1 rfl,
   (c8_malformed_context_rejected (fun _ => some "exclusions must be a list")
      stEmpty 1 (.wellFormed emptyContext)).2 emptyContext
      "exclusions must be a list" rfl rfl⟩

/-- Claim C10: atomicity of ConnectDB - an undecodable body, a
non-postgres Type, or a failed connection attempt each answer an error
status and leave the stored CurrentDB untouched with nothing closed; the
previous connection is closed and replaced exactly when a new connection
has been established. -/
theorem c10_connectdb_atomic {DS : Type}
    (connect : DataSourceConfig → Except String DS)
    (current : Option DS) (payload : ConnPayload) :
    (payload = .invalidJson →
       connectDBHandler connect current payload = ⟨400, current, []⟩) ∧
    (∀ cfg, payload = .config cfg → cfg.type ≠ "postgres" →
       connectDBHandler connect current payload = ⟨400, current, []⟩) ∧
    (∀ cfg e, payload = .config cfg → cfg.type = "postgres" →
       connect cfg = .error e →
       connectDBHandler connect current payload = ⟨500, current, []⟩) ∧
    (∀ cfg ds, payload = .config cfg → cfg.type = "postgres" →
       connect cfg = .ok ds →
       connectDBHandler connect current payload =
         ⟨200, some ds, current.toList⟩) := by
  refine ⟨?_, ?_, ?_, ?_⟩
  · rintro rfl
    rfl
  · rintro cfg rfl hty
    simp [connectDBHandler, hty]
  · rintro cfg e rfl hty hc
    simp [connectDBHandler, hty, hc]
  · rintro cfg ds rfl hty hc
    simp [connectDBHandler, hty, hc]

/-- Witness for C10 with a unit data source: a bad body and a rejected
Type leave the connection alone; a successful connect replaces it and
closes the previous one. -/
theorem c10_connectdb_atomic_witness :
    connectDBHandler (fun _ => Except.ok ()) (some ()) ConnPayload.invalidJson
        = ⟨400, some (), []⟩ ∧
    connectDBHandler (fun _ => Except.ok ()) (some ())
        (.config ⟨"mysql", "dsn"⟩) = ⟨400, some (), []⟩ ∧
    connectDBHandler (fun _ => Except.error "refused") (some ())
        (.config ⟨"postgres", "dsn"⟩) = ⟨500, some (), []⟩ ∧
    connectDBHandler (fun _ => Except.ok ()) (some ())
        (.config ⟨"postgres", "dsn"⟩) = ⟨200, some (), [()]⟩ :=
  ⟨(c10_connectdb_atomic (fun _ => Except.ok ()) (some ())
      ConnPayload.invalidJson).1 rfl,
   (c10_connectdb_atomic (fun _ => Except.ok ()) (some ())
      (.config ⟨"mysql", "dsn"⟩)).2.1 ⟨"mysql", "dsn"⟩ rfl (by decide),
   (c10_connectdb_atomic (fun _ => Except.error "refused") (some ())
      (.config ⟨"postgres", "dsn"⟩)).2.2.1 ⟨"postgres", "dsn"⟩ "refused"
      rfl rfl rfl,
   (c10_connectdb_atomic (fun _ => Except.ok ()) (some ())
      (.config ⟨"postgres", "dsn"⟩)).2.2.2 ⟨"postgres", "dsn"⟩ () rfl rfl rfl⟩

end EulerCorr
